import Mathlib

/-!
Verification of the CRM core (crm/models.py, crm/schema.py, crm/filters.py):
a shallow embedding of the customer / product / order data model, the four
create mutations, and the custom filter methods, with theorems settling the
spec's claims about them.

Conventions of the embedding:
* The entity store is explicit state: lists of customers, products, orders.
  A Django queryset scan is a list traversal in table order.
* GraphQL / Django ids are natural numbers (Django coerces the string form;
  `str` is injective on them, so the `str`-based comparisons of
  `CreateOrder.mutate` become plain equality).
* Fixed-point decimals with 2 decimal places (DecimalField prices and
  totals) are integers counted in cents: summation is exact, as in the
  Decimal-valued SQL aggregate the code uses.
* Python `re.match` with a pattern anchored by `$` matches either the whole
  string or the whole string minus one trailing newline (the documented
  semantics of `$` outside MULTILINE mode); `phoneRegexMatch` embeds that.
* Python `\d` in an unflagged `str` pattern matches any Unicode decimal
  digit (general category Nd), not only ASCII `0-9`; `isNdDigit` embeds Nd
  by its code-point ranges, while `isDigitChar` is the plain `0-9` reading
  used for the spec's grammar as written.
-/

namespace Crm

/-- A decimal digit `0-9`: the plain ASCII reading of `\d`, used for the
spec's grammar as written. -/
def isDigitChar (c : Char) : Bool := 48 ≤ c.toNat && c.toNat ≤ 57

/-- The code-point ranges of the Unicode general category Nd (decimal
digits), Unicode 15.1 (as shipped with current CPython); each entry is an
inclusive range, and every range is a full run of ten digits (the
mathematical digits at 0x1D7CE form five consecutive runs). -/
def ndDigitRanges : List (Nat × Nat) :=
  [(0x30, 0x39), (0x660, 0x669), (0x6F0, 0x6F9), (0x7C0, 0x7C9),
   (0x966, 0x96F), (0x9E6, 0x9EF), (0xA66, 0xA6F), (0xAE6, 0xAEF),
   (0xB66, 0xB6F), (0xBE6, 0xBEF), (0xC66, 0xC6F), (0xCE6, 0xCEF),
   (0xD66, 0xD6F), (0xDE6, 0xDEF), (0xE50, 0xE59), (0xED0, 0xED9),
   (0xF20, 0xF29), (0x1040, 0x1049), (0x1090, 0x1099), (0x17E0, 0x17E9),
   (0x1810, 0x1819), (0x1946, 0x194F), (0x19D0, 0x19D9), (0x1A80, 0x1A89),
   (0x1A90, 0x1A99), (0x1B50, 0x1B59), (0x1BB0, 0x1BB9), (0x1C40, 0x1C49),
   (0x1C50, 0x1C59), (0xA620, 0xA629), (0xA8D0, 0xA8D9), (0xA900, 0xA909),
   (0xA9D0, 0xA9D9), (0xA9F0, 0xA9F9), (0xAA50, 0xAA59), (0xABF0, 0xABF9),
   (0xFF10, 0xFF19), (0x104A0, 0x104A9), (0x10D30, 0x10D39),
   (0x11066, 0x1106F), (0x110F0, 0x110F9), (0x11136, 0x1113F),
   (0x111D0, 0x111D9), (0x112F0, 0x112F9), (0x11450, 0x11459),
   (0x114D0, 0x114D9), (0x11650, 0x11659), (0x116C0, 0x116C9),
   (0x11730, 0x11739), (0x118E0, 0x118E9), (0x11950, 0x11959),
   (0x11C50, 0x11C59), (0x11D50, 0x11D59), (0x11DA0, 0x11DA9),
   (0x11F50, 0x11F59), (0x16A60, 0x16A69), (0x16AC0, 0x16AC9),
   (0x16B50, 0x16B59), (0x1D7CE, 0x1D7FF), (0x1E140, 0x1E149),
   (0x1E2F0, 0x1E2F9), (0x1E4F0, 0x1E4F9), (0x1E950, 0x1E959),
   (0x1FBF0, 0x1FBF9)]

/-- A Unicode decimal digit (category Nd): what Python's `\d` matches in
the unflagged `str` pattern PHONE_RE. -/
def isNdDigit (c : Char) : Bool :=
  ndDigitRanges.any (fun r => r.1 ≤ c.toNat && c.toNat ≤ r.2)

/-- The branch `\+\d{7,15}` of PHONE_RE, with the digit class `\d` passed
in as a predicate: a plus sign followed by 7 to 15 digits. -/
def plusFormWith (digit : Char → Bool) (l : List Char) : Bool :=
  match l with
  | c :: rest =>
      c == '+' && rest.all digit && decide (7 ≤ rest.length) && decide (rest.length ≤ 15)
  | [] => false

/-- The branch `\d{3}-\d{3}-\d{4}` of PHONE_RE, with the digit class `\d`
passed in as a predicate: exactly NNN-NNN-NNNN. -/
def dashFormWith (digit : Char → Bool) (l : List Char) : Bool :=
  match l with
  | [a, b, c, x, d, e, f, y, g, h, i, j] =>
      x == '-' && y == '-' && [a, b, c, d, e, f, g, h, i, j].all digit
  | _ => false

/-- The alternation inside PHONE_RE, matched against a whole character
list, with the digit class passed in as a predicate. -/
def phoneCoreWith (digit : Char → Bool) (l : List Char) : Bool :=
  plusFormWith digit l || dashFormWith digit l

/-- The alternation inside PHONE_RE as the source's regex engine reads it:
`\d` is a Unicode Nd digit. -/
def phoneCore (l : List Char) : Bool := phoneCoreWith isNdDigit l

/-- Embedding of `PHONE_RE.match s` for `PHONE_RE = ^(\+\d{7,15}|\d{3}-\d{3}-\d{4})$`:
Python's `$` (no MULTILINE flag) matches at the end of the string or just
before a single newline at the end of the string. -/
def phoneRegexMatch (l : List Char) : Bool :=
  phoneCore l || (l.getLast? == some '\n' && phoneCore l.dropLast)

/-- Embedding of `_valid_phone` of crm/schema.py: an empty string is accepted, otherwise
the string must match PHONE_RE. -/
def valid_phone (s : String) : Bool :=
  if s = "" then true else phoneRegexMatch s.data

/-- Python `x or ""` applied to an optional string argument: `None` and the
empty string both collapse to the empty string. -/
def pyOrEmpty (p : Option String) : String := p.getD ""

/-- Python `x or None` applied to the phone before storage: `None` and the
empty string both collapse to NULL. -/
def pyOrNone (p : Option String) : Option String :=
  match p with
  | none => none
  | some s => if s = "" then none else some s

/-- Python `str(x)` on an optional string, as interpolated into the bulk
phone-error message (`None` prints as "None"). -/
def pyShowOpt (p : Option String) : String :=
  match p with
  | none => "None"
  | some s => s

/-! ## Data model (crm/models.py) -/

/-- A row of the Customer table. -/
structure Customer where
  id : Nat
  name : String
  email : String
  phone : Option String
  deriving DecidableEq, Repr

/-- A row of the Product table; `price` in cents (DecimalField, 2 places). -/
structure Product where
  id : Nat
  name : String
  price : Int
  stock : Nat
  deriving DecidableEq, Repr

/-- A row of the Order table together with its many-to-many product
associations; `total_amount` in cents, `order_date` an abstract timestamp. -/
structure Order where
  id : Nat
  customerId : Nat
  productIds : List Nat
  total_amount : Int
  order_date : Nat
  deriving DecidableEq, Repr

/-- The mutable entity store. -/
structure DB where
  customers : List Customer
  products : List Product
  orders : List Order
  deriving DecidableEq, Repr

/-- Emails of a customer table, in row order. -/
def emails (db : List Customer) : List String := db.map (fun c => c.email)

/-- Embedding of `Customer.objects.filter(email=e).exists()`. -/
def emailExists (db : List Customer) (e : String) : Bool :=
  db.any (fun c => c.email == e)

/-! ## CreateCustomer (crm/schema.py, lines 81-109) -/

/-- Input of CreateCustomer / one row of BulkCreateCustomers: name and email
are GraphQL-required (non-null, possibly empty), phone optional. -/
structure CustomerInput where
  name : String
  email : String
  phone : Option String
  deriving DecidableEq, Repr

/-- The row `Customer.objects.create(...)` produces for an input (fresh id;
`phone or None`). -/
def mkCustomer (db : List Customer) (input : CustomerInput) : Customer :=
  { id := db.length, name := input.name, email := input.email,
    phone := pyOrNone input.phone }

/-- Response shape of CreateCustomer. -/
structure CreateCustomerResult where
  customer : Option Customer
  message : String
  errors : List String
  deriving DecidableEq, Repr

/-- The validation error list built by `CreateCustomer.mutate`: email
uniqueness first, then phone format; both checks always run. -/
def createCustomerErrors (db : List Customer) (input : CustomerInput) : List String :=
  (if emailExists db input.email then ["Email already exists."] else []) ++
  (if !valid_phone (pyOrEmpty input.phone) then
      ["Invalid phone format. Use +1234567890 or 123-456-7890."] else [])

/-- Embedding of `CreateCustomer.mutate`: collect errors; on any error return a null
customer and the list, else create and return the row. Returns the response
and the updated customer table. -/
def createCustomer (db : List Customer) (input : CustomerInput) :
    CreateCustomerResult × List Customer :=
  let errors := createCustomerErrors db input
  if errors ≠ [] then
    ({ customer := none, message := "Failed", errors := errors }, db)
  else
    let c := mkCustomer db input
    ({ customer := some c, message := "Customer created successfully.", errors := [] },
     db ++ [c])

/-! ## BulkCreateCustomers (crm/schema.py, lines 112-155) -/

/-- The per-row validation of `BulkCreateCustomers.mutate`: name required,
email required and (only when present) unique against the customers visible
at this point, phone format. Messages are tagged with the 0-based row index. -/
def rowErrors (idx : Nat) (db : List Customer) (data : CustomerInput) : List String :=
  (if data.name = "" then ["Row " ++ toString idx ++ ": Name is required."] else []) ++
  (if data.email = "" then ["Row " ++ toString idx ++ ": Email is required."]
   else if emailExists db data.email then
      ["Row " ++ toString idx ++ ": Email already exists (" ++ data.email ++ ")."]
   else []) ++
  (if !valid_phone (pyOrEmpty data.phone) then
      ["Row " ++ toString idx ++ ": Invalid phone format (" ++ pyShowOpt data.phone ++ ")."]
   else [])

/-- Response of BulkCreateCustomers, together with the table it leaves
behind: a failed row's savepoint is rolled back, so only successful rows are
visible to later rows and to the final state. -/
structure BulkResult where
  db : List Customer
  customers : List Customer
  errors : List String
  deriving DecidableEq, Repr

/-- The row loop of `BulkCreateCustomers.mutate`: each row validates against
the current table (pre-existing rows plus earlier successful rows of this
batch); a failing row appends its messages and leaves the table unchanged
(savepoint rollback), a successful row commits its savepoint. -/
def bulkCreateAux (db : List Customer) (created : List Customer)
    (errs : List String) (idx : Nat) : List CustomerInput → BulkResult
  | [] => { db := db, customers := created, errors := errs }
  | data :: rest =>
      let rerrs := rowErrors idx db data
      if rerrs ≠ [] then
        bulkCreateAux db created (errs ++ rerrs) (idx + 1) rest
      else
        let c := mkCustomer db data
        bulkCreateAux (db ++ [c]) (created ++ [c]) errs (idx + 1) rest

/-- Embedding of `BulkCreateCustomers.mutate` over an ordered sequence of row inputs. -/
def bulkCreateCustomers (db : List Customer) (input : List CustomerInput) : BulkResult :=
  bulkCreateAux db [] [] 0 input

/-! ## CreateOrder (crm/schema.py, lines 194-228) -/

/-- Input of CreateOrder: required customer id, required product-id list
(possibly empty or with repeats), optional order date. -/
structure OrderInput where
  customer_id : Nat
  product_ids : List Nat
  order_date : Option Nat
  deriving DecidableEq, Repr

/-- Response shape of CreateOrder. -/
structure CreateOrderResult where
  order : Option Order
  errors : List String
  deriving DecidableEq, Repr

/-- Embedding of `Customer.objects.get(pk=...)` as an option. -/
def getCustomer (db : List Customer) (cid : Nat) : Option Customer :=
  db.find? (fun c => c.id == cid)

/-- Embedding of `Product.objects.filter(id__in=product_ids)`: the product rows, in table
order, whose id occurs in the supplied list (each table row at most once). -/
def productsIn (products : List Product) (pids : List Nat) : List Product :=
  products.filter (fun p => pids.contains p.id)

/-- The `missing` list of `CreateOrder.mutate`: the supplied ids (repeats included,
in list order) not found among the resolved product rows
(`found_ids = set(str(p.id) for p in products_qs)`; `str` is injective on
ids, so the comparison is id equality). -/
def orderMissing (products : List Product) (pids : List Nat) : List Nat :=
  pids.filter (fun pid => !((productsIn products pids).map (fun p => p.id)).contains pid)

/-- The order row the success path of `CreateOrder.mutate` creates: fresh
id, the resolved customer, the resolved product set as associations,
`order_date` the supplied value or now, and `total_amount` the exact
fixed-point sum of the resolved products' prices (the Decimal `Sum`
aggregate; its `or Decimal("0.00")` floor coincides with the empty/zero
sum). -/
def mkOrder (db : DB) (customer : Customer) (input : OrderInput) (now : Nat) : Order :=
  { id := db.orders.length, customerId := customer.id,
    productIds := (productsIn db.products input.product_ids).map (fun p => p.id),
    total_amount := ((productsIn db.products input.product_ids).map (fun p => p.price)).sum,
    order_date := input.order_date.getD now }

/-- Embedding of `CreateOrder.mutate`: resolve the customer (short-circuit on failure),
require a non-empty product list, resolve all product ids (fail listing the
missing ones, repeats included, comma-joined), then create the order
atomically. -/
def createOrder (db : DB) (now : Nat) (input : OrderInput) :
    CreateOrderResult × DB :=
  match getCustomer db.customers input.customer_id with
  | none =>
      ({ order := none,
         errors := ["Invalid customer ID: " ++ toString input.customer_id] }, db)
  | some customer =>
      if input.product_ids = [] then
        ({ order := none, errors := ["At least one product must be selected."] }, db)
      else if orderMissing db.products input.product_ids ≠ [] then
        ({ order := none,
           errors := ["Invalid product ID(s): " ++
                      String.intercalate ", "
                        ((orderMissing db.products input.product_ids).map toString)] }, db)
      else
        ({ order := some (mkOrder db customer input now), errors := [] },
         { db with orders := db.orders ++ [mkOrder db customer input now] })

/-! ## Filters (crm/filters.py) -/

/-- Whether the first character list starts with the second one. -/
def charsStartWith : List Char → List Char → Bool
  | _, [] => true
  | [], _ :: _ => false
  | a :: as, b :: bs => a == b && charsStartWith as bs

/-- Whether a stored (nullable) phone value starts with the given string:
`phone__startswith` excludes NULL phones. -/
def phoneStartsWith (phone : Option String) (v : String) : Bool :=
  match phone with
  | none => false
  | some s => charsStartWith s.data v.data

/-- Embedding of `CustomerFilter.filter_phone_pattern`: a non-empty value keeps the
customers whose phone starts with it; a falsy (empty) value is a no-op. -/
def filter_phone_pattern (qs : List Customer) (value : String) : List Customer :=
  if value ≠ "" then qs.filter (fun c => phoneStartsWith c.phone value) else qs

/-- SQL DISTINCT over result rows: drop duplicate rows. -/
def distinctRows (l : List Order) : List Order := l.dedup

/-- The join fan-out of `queryset.filter(products__id=value)`: one result
row per (order, association) pair whose associated product id equals the
value. -/
def joinRowsByProduct (qs : List Order) (v : Nat) : List Order :=
  qs.flatMap (fun o => (o.productIds.filter (fun pid => pid == v)).map (fun _ => o))

/-- Embedding of `OrderFilter.filter_product_id`: with a value, filter by product
membership over the join and deduplicate (`.distinct()`); with no value,
no-op. -/
def filter_product_id (qs : List Order) (value : Option Nat) : List Order :=
  match value with
  | some v => distinctRows (joinRowsByProduct qs v)
  | none => qs

/-! ## The spec's phone grammar, for comparison with the code's check -/

/-- The spec's external contract read literally: the string as a whole is
generated by `^(\+\d{7,15}|\d{3}-\d{3}-\d{4})$`, i.e. it is exactly a plus
sign followed by 7-15 digits, or exactly NNN-NNN-NNNN — nothing before,
nothing after. -/
def specPhoneGrammar (s : String) : Bool :=
  phoneCoreWith isDigitChar s.data

/-- The spec's grammar with `\d` read the way the source's regex engine
reads it — any Unicode Nd digit — still anchored to the whole string:
nothing before, nothing after. -/
def specPhoneGrammarNd (s : String) : Bool :=
  phoneCoreWith isNdDigit s.data

/-! ## Sequences of customer-creating mutations -/

/-- One customer-creating mutation request: a single CreateCustomer or a
BulkCreateCustomers batch. -/
inductive MutationOp where
  | single : CustomerInput → MutationOp
  | bulk : List CustomerInput → MutationOp
  deriving DecidableEq, Repr

/-- The customer table a mutation leaves behind. -/
def applyOp (db : List Customer) : MutationOp → List Customer
  | MutationOp.single i => (createCustomer db i).2
  | MutationOp.bulk l => (bulkCreateCustomers db l).db

/-- The customer table after a sequence of mutations. -/
def applyOps (db : List Customer) (ops : List MutationOp) : List Customer :=
  ops.foldl applyOp db

/-! # Theorems -/

/-- C2 evaluation at the failing input: `CreateCustomer.mutate` performs no
name check, so an input with an empty name, a fresh email and no phone
creates a Customer row (with empty name) and returns it with an empty error
list — the claimed null-customer-plus-errors response does not happen. -/
theorem createCustomer_empty_name_creates_entity :
    (createCustomer [] { name := "", email := "x@example.com", phone := none }).1.customer =
      some { id := 0, name := "", email := "x@example.com", phone := none } ∧
    (createCustomer [] { name := "", email := "x@example.com", phone := none }).1.errors = [] ∧
    (createCustomer [] { name := "", email := "x@example.com", phone := none }).2 =
      [{ id := 0, name := "", email := "x@example.com", phone := none }] := by
  decide

/-- C3: on an input whose email already exists and whose phone fails the
format check, `CreateCustomer.mutate` runs both checks and returns a null
customer together with exactly the two error messages, in check order, and
creates nothing. -/
theorem createCustomer_collects_both_errors (db : List Customer) (input : CustomerInput)
    (hdup : emailExists db input.email = true)
    (hphone : valid_phone (pyOrEmpty input.phone) = false) :
    createCustomer db input =
      ({ customer := none, message := "Failed",
         errors := ["Email already exists.",
                    "Invalid phone format. Use +1234567890 or 123-456-7890."] }, db) := by
  simp [createCustomer, createCustomerErrors, hdup, hphone]

/-- Witness for C3's theorem at a concrete store and input. -/
theorem createCustomer_collects_both_errors_witness :
    createCustomer [{ id := 0, name := "A", email := "a@x.com", phone := none }]
        { name := "B", email := "a@x.com", phone := some "abc" } =
      ({ customer := none, message := "Failed",
         errors := ["Email already exists.",
                    "Invalid phone format. Use +1234567890 or 123-456-7890."] },
       [{ id := 0, name := "A", email := "a@x.com", phone := none }]) :=
  createCustomer_collects_both_errors _ _ (by decide) (by decide)

/-- C4: when the customer id does not resolve, `CreateOrder.mutate` returns
a null order and exactly one error naming that id, for every product-id
list whatsoever, and leaves the store unchanged — product ids are never
examined. -/
theorem createOrder_short_circuits_on_bad_customer (db : DB) (now : Nat)
    (cid : Nat) (od : Option Nat)
    (h : getCustomer db.customers cid = none) :
    ∀ pids : List Nat,
      createOrder db now { customer_id := cid, product_ids := pids, order_date := od } =
        ({ order := none, errors := ["Invalid customer ID: " ++ toString cid] }, db) := by
  intro pids
  simp [createOrder, h]

/-- Witness for C4's theorem: customer id 7 is absent, and the result is the
single error even though the product list mixes a valid and an invalid id. -/
theorem createOrder_short_circuits_on_bad_customer_witness :
    createOrder
        { customers := [{ id := 0, name := "A", email := "a@x.com", phone := none }],
          products := [{ id := 1, name := "P1", price := 1000, stock := 5 }],
          orders := [] }
        99 { customer_id := 7, product_ids := [1, 42], order_date := none } =
      ({ order := none, errors := ["Invalid customer ID: 7"] },
       { customers := [{ id := 0, name := "A", email := "a@x.com", phone := none }],
         products := [{ id := 1, name := "P1", price := 1000, stock := 5 }],
         orders := [] }) :=
  createOrder_short_circuits_on_bad_customer _ 99 7 none (by decide) [1, 42]

/-- C8: the phone_pattern filter with a non-empty value keeps exactly the
customers whose (non-NULL) phone starts with that value, and the empty
(falsy) value is a no-op. -/
theorem filter_phone_pattern_spec (qs : List Customer) (v : String) :
    (v ≠ "" → ∀ c : Customer,
        c ∈ filter_phone_pattern qs v ↔ c ∈ qs ∧ phoneStartsWith c.phone v = true) ∧
    filter_phone_pattern qs "" = qs := by
  constructor
  · intro hv c
    simp [filter_phone_pattern, hv, List.mem_filter]
  · simp [filter_phone_pattern]

/-- Witness for C8's theorem: value "+1" keeps "+1234567890" and drops
"123-456-7890", "+2345678901" and a NULL phone. -/
theorem filter_phone_pattern_spec_witness :
    ({ id := 0, name := "A", email := "a", phone := some "+1234567890" } ∈
        filter_phone_pattern
          [{ id := 0, name := "A", email := "a", phone := some "+1234567890" },
           { id := 1, name := "B", email := "b", phone := some "123-456-7890" },
           { id := 2, name := "C", email := "c", phone := some "+2345678901" },
           { id := 3, name := "D", email := "d", phone := none }] "+1") ∧
    ¬ ({ id := 1, name := "B", email := "b", phone := some "123-456-7890" } ∈
        filter_phone_pattern
          [{ id := 0, name := "A", email := "a", phone := some "+1234567890" },
           { id := 1, name := "B", email := "b", phone := some "123-456-7890" },
           { id := 2, name := "C", email := "c", phone := some "+2345678901" },
           { id := 3, name := "D", email := "d", phone := none }] "+1") := by
  constructor
  · exact ((filter_phone_pattern_spec _ "+1").1 (by decide) _).mpr ⟨by decide, by decide⟩
  · intro hmem
    have h := ((filter_phone_pattern_spec _ "+1").1 (by decide) _).mp hmem
    exact absurd h.2 (by decide)

/-- C9: the product_id filter with a value returns a duplicate-free list
containing exactly the orders associated with that product id, and with no
value it is a no-op. -/
theorem filter_product_id_spec (qs : List Order) (v : Nat) :
    (filter_product_id qs (some v)).Nodup ∧
    (∀ o : Order, o ∈ filter_product_id qs (some v) ↔ o ∈ qs ∧ v ∈ o.productIds) ∧
    filter_product_id qs none = qs := by
  refine ⟨List.nodup_dedup _, ?_, rfl⟩
  intro o
  simp only [filter_product_id, distinctRows, joinRowsByProduct, List.mem_dedup,
    List.mem_flatMap, List.mem_map, List.mem_filter]
  constructor
  · rintro ⟨a, ha, ⟨pid, ⟨hpid, hbeq⟩, rfl⟩⟩
    have hpv : pid = v := eq_of_beq hbeq
    exact ⟨ha, hpv ▸ hpid⟩
  · rintro ⟨hq, hv⟩
    exact ⟨o, hq, ⟨v, ⟨hv, by simp⟩, rfl⟩⟩

/-- Witness for C9's theorem: product id 2 is associated with both sample
orders, each of which appears exactly once in the filtered result. -/
theorem filter_product_id_spec_witness :
    ({ id := 0, customerId := 0, productIds := [1, 2], total_amount := 1550,
       order_date := 9 : Order } ∈
      filter_product_id
        [{ id := 0, customerId := 0, productIds := [1, 2], total_amount := 1550, order_date := 9 },
         { id := 1, customerId := 0, productIds := [2], total_amount := 550, order_date := 9 }]
        (some 2)) ∧
    (filter_product_id
        [{ id := 0, customerId := 0, productIds := [1, 2], total_amount := 1550, order_date := 9 },
         { id := 1, customerId := 0, productIds := [2], total_amount := 550, order_date := 9 }]
        (some 2)).Nodup := by
  refine ⟨?_, (filter_product_id_spec _ 2).1⟩
  exact ((filter_product_id_spec _ 2).2.1 _).mpr ⟨by decide, by decide⟩

/-- For a product row of the table, having its id among the resolved
products' ids is the same as having it among the supplied ids. -/
theorem productsIn_ids_contains (products : List Product) (pids : List Nat)
    (p : Product) (hp : p ∈ products) :
    ((productsIn products pids).map (fun q => q.id)).contains p.id = pids.contains p.id := by
  by_cases hmem : p.id ∈ pids
  · have h1 : p.id ∈ (productsIn products pids).map (fun q => q.id) :=
      List.mem_map.mpr ⟨p, List.mem_filter.mpr ⟨hp, by simp [hmem]⟩, rfl⟩
    simp [h1, hmem]
  · have h1 : ¬ p.id ∈ (productsIn products pids).map (fun q => q.id) := by
      intro hcon
      rcases List.mem_map.mp hcon with ⟨q, hq, hqid⟩
      have hqpids := (List.mem_filter.mp hq).2
      rw [hqid] at hqpids
      simp at hqpids
      exact hmem hqpids
    simp [h1, hmem]

/-- Filtering the product table by membership of the resolved ids gives
back exactly the resolved products. -/
theorem filter_by_resolved_ids (products : List Product) (pids : List Nat) :
    products.filter
        (fun p => ((productsIn products pids).map (fun q => q.id)).contains p.id) =
      productsIn products pids := by
  unfold productsIn
  apply List.filter_congr
  intro p hp
  exact productsIn_ids_contains products pids p hp

/-- C5: every order a successful CreateOrder returns has `total_amount`
equal to the exact fixed-point sum of the prices of the product rows it is
associated with — integer-cent summation, no floating-point drift. -/
theorem createOrder_total_is_exact_price_sum (db : DB) (now : Nat) (input : OrderInput)
    (o : Order) (h : (createOrder db now input).1.order = some o) :
    o.total_amount =
      ((db.products.filter (fun p => o.productIds.contains p.id)).map
        (fun p => p.price)).sum := by
  unfold createOrder at h
  split at h
  · exact absurd h (by simp)
  · by_cases h1 : input.product_ids = []
    · rw [if_pos h1] at h
      exact absurd h (by simp)
    · rw [if_neg h1] at h
      by_cases h2 : orderMissing db.products input.product_ids ≠ []
      · rw [if_pos h2] at h
        exact absurd h (by simp)
      · rw [if_neg h2] at h
        simp only [Option.some.injEq] at h
        subst h
        simp only [mkOrder]
        rw [filter_by_resolved_ids]

/-- Witness for C5's theorem: products priced 10.00 and 5.50 (1000 and 550
cents) give an order whose total is their exact sum, 15.50 (1550 cents). -/
theorem createOrder_total_is_exact_price_sum_witness :
    ((createOrder
        { customers := [{ id := 0, name := "A", email := "a@x.com", phone := none }],
          products := [{ id := 1, name := "P1", price := 1000, stock := 5 },
                       { id := 2, name := "P2", price := 550, stock := 5 }],
          orders := [] }
        99 { customer_id := 0, product_ids := [1, 2], order_date := none }).1.order =
      some { id := 0, customerId := 0, productIds := [1, 2], total_amount := 1550,
             order_date := 99 }) ∧
    ({ id := 0, customerId := 0, productIds := [1, 2], total_amount := 1550,
       order_date := 99 : Order }).total_amount =
      (((([{ id := 1, name := "P1", price := 1000, stock := 5 },
          { id := 2, name := "P2", price := 550, stock := 5 }] : List Product).filter
          (fun p =>
            ({ id := 0, customerId := 0, productIds := [1, 2], total_amount := 1550,
               order_date := 99 : Order }).productIds.contains p.id)).map
        (fun p => p.price)).sum) ∧
    ({ id := 0, customerId := 0, productIds := [1, 2], total_amount := 1550,
       order_date := 99 : Order }).total_amount = (1550 : Int) := by
  refine ⟨by decide, ?_, by decide⟩
  exact createOrder_total_is_exact_price_sum
    { customers := [{ id := 0, name := "A", email := "a@x.com", phone := none }],
      products := [{ id := 1, name := "P1", price := 1000, stock := 5 },
                   { id := 2, name := "P2", price := 550, stock := 5 }],
      orders := [] }
    99 { customer_id := 0, product_ids := [1, 2], order_date := none } _ (by decide)

/-- Deduplicating the supplied id list does not change which product rows
resolve. -/
theorem productsIn_dedup (products : List Product) (pids : List Nat) :
    productsIn products pids.dedup = productsIn products pids := by
  unfold productsIn
  apply List.filter_congr
  intro p _
  by_cases hmem : p.id ∈ pids
  · simp [hmem]
  · simp [hmem]

/-- When every supplied id resolves to a product row, the `missing` list of
CreateOrder is empty. -/
theorem orderMissing_nil_of_all_found (products : List Product) (pids : List Nat)
    (hall : ∀ pid ∈ pids, ∃ p ∈ products, p.id = pid) :
    orderMissing products pids = [] := by
  unfold orderMissing
  rw [List.filter_eq_nil_iff]
  intro pid hpid
  rcases hall pid hpid with ⟨p, hp, hpid'⟩
  have hfound : pid ∈ (productsIn products pids).map (fun q => q.id) :=
    List.mem_map.mpr ⟨p, List.mem_filter.mpr ⟨hp, by simp [hpid', hpid]⟩, hpid'⟩
  simp [hfound]

/-- C10: a CreateOrder input whose product-id list repeats existing ids
behaves exactly as if the list were deduplicated — the same response and
store result — and the created order carries each product association at
most once, with the total the sum over that duplicate-free association
set. -/
theorem createOrder_duplicate_ids_as_dedup (db : DB) (now : Nat) (input : OrderInput)
    (hc : ∃ c, getCustomer db.customers input.customer_id = some c)
    (hne : input.product_ids ≠ [])
    (hall : ∀ pid ∈ input.product_ids, ∃ p ∈ db.products, p.id = pid)
    (hnodup : (db.products.map (fun p => p.id)).Nodup) :
    createOrder db now input =
      createOrder db now
        { customer_id := input.customer_id,
          product_ids := input.product_ids.dedup,
          order_date := input.order_date } ∧
    ∃ o : Order, (createOrder db now input).1.order = some o ∧ o.productIds.Nodup ∧
      o.total_amount =
        ((productsIn db.products input.product_ids.dedup).map (fun p => p.price)).sum := by
  rcases hc with ⟨c, hc⟩
  have hne' : input.product_ids.dedup ≠ [] := by
    intro hcon
    exact hne ((List.dedup_eq_nil _).mp hcon)
  have hmiss : orderMissing db.products input.product_ids = [] :=
    orderMissing_nil_of_all_found _ _ hall
  have hmiss' : orderMissing db.products input.product_ids.dedup = [] := by
    apply orderMissing_nil_of_all_found
    intro pid hpid
    exact hall pid (List.mem_dedup.mp hpid)
  have hmk : mkOrder db c input now =
      mkOrder db c
        { customer_id := input.customer_id, product_ids := input.product_ids.dedup,
          order_date := input.order_date } now := by
    simp only [mkOrder, productsIn_dedup]
  have heval : createOrder db now input =
      ({ order := some (mkOrder db c input now), errors := [] },
       { db with orders := db.orders ++ [mkOrder db c input now] }) := by
    simp [createOrder, hc, hne, hmiss]
  have heval' : createOrder db now
      { customer_id := input.customer_id, product_ids := input.product_ids.dedup,
        order_date := input.order_date } =
      ({ order := some (mkOrder db c input now), errors := [] },
       { db with orders := db.orders ++ [mkOrder db c input now] }) := by
    simp [createOrder, hc, hne', hmiss', ← hmk]
  refine ⟨heval.trans heval'.symm, mkOrder db c input now, ?_, ?_, ?_⟩
  · rw [heval]
  · simp only [mkOrder, productsIn]
    exact List.Nodup.sublist
      ((List.filter_sublist db.products).map (fun p : Product => p.id)) hnodup
  · simp only [mkOrder, productsIn_dedup]

/-- Witness for C10's theorem: supplying product id 1 twice creates the
same order as supplying it once, associated with product 1 exactly once and
totalling its price once. -/
theorem createOrder_duplicate_ids_as_dedup_witness :
    (createOrder
        { customers := [{ id := 0, name := "A", email := "a@x.com", phone := none }],
          products := [{ id := 1, name := "P1", price := 1000, stock := 5 }],
          orders := [] }
        99 { customer_id := 0, product_ids := [1, 1], order_date := none } =
      createOrder
        { customers := [{ id := 0, name := "A", email := "a@x.com", phone := none }],
          products := [{ id := 1, name := "P1", price := 1000, stock := 5 }],
          orders := [] }
        99 { customer_id := 0, product_ids := ([1, 1] : List Nat).dedup,
             order_date := none }) ∧
    ∃ o : Order,
      (createOrder
          { customers := [{ id := 0, name := "A", email := "a@x.com", phone := none }],
            products := [{ id := 1, name := "P1", price := 1000, stock := 5 }],
            orders := [] }
          99 { customer_id := 0, product_ids := [1, 1], order_date := none }).1.order =
        some o ∧ o.productIds.Nodup ∧
      o.total_amount =
        ((productsIn [{ id := 1, name := "P1", price := 1000, stock := 5 }]
            ([1, 1] : List Nat).dedup).map (fun p => p.price)).sum :=
  createOrder_duplicate_ids_as_dedup
    { customers := [{ id := 0, name := "A", email := "a@x.com", phone := none }],
      products := [{ id := 1, name := "P1", price := 1000, stock := 5 }],
      orders := [] }
    99 { customer_id := 0, product_ids := [1, 1], order_date := none }
    ⟨{ id := 0, name := "A", email := "a@x.com", phone := none }, by decide⟩
    (by decide) (by decide) (by decide)

/-- C6 counterexample, one input per Python-regex quirk: "+1234567" with a
trailing newline is accepted (the `$` anchor also matches just before a
single final newline), and a plus sign followed by seven Arabic-Indic
digits is accepted (`\d` in the unflagged str pattern matches any Unicode
Nd digit) — yet neither string is generated by the spec's grammar as
written, and neither is empty, so acceptance is not equivalent to
grammar-or-empty. -/
theorem valid_phone_accepts_beyond_grammar :
    (valid_phone "+1234567\n" = true ∧
     specPhoneGrammar "+1234567\n" = false ∧
     ("+1234567\n" : String) ≠ "") ∧
    (valid_phone "+٠١٢٣٤٥٦" = true ∧
     specPhoneGrammar "+٠١٢٣٤٥٦" = false ∧
     ("+٠١٢٣٤٥٦" : String) ≠ "") := by
  decide

/-- A plus-branch match is preserved when the digit class grows pointwise. -/
theorem plusFormWith_mono {d1 d2 : Char → Bool}
    (hm : ∀ c, d1 c = true → d2 c = true) :
    ∀ l : List Char, plusFormWith d1 l = true → plusFormWith d2 l = true := by
  intro l h
  rcases l with _ | ⟨c0, rest⟩
  · exact absurd h (by simp [plusFormWith])
  · simp only [plusFormWith, Bool.and_eq_true, List.all_eq_true] at h ⊢
    obtain ⟨⟨⟨hplus, hdig⟩, hlen1⟩, hlen2⟩ := h
    exact ⟨⟨⟨hplus, fun c hc => hm c (hdig c hc)⟩, hlen1⟩, hlen2⟩

/-- A dash-branch match is preserved when the digit class grows pointwise. -/
theorem dashFormWith_mono {d1 d2 : Char → Bool}
    (hm : ∀ c, d1 c = true → d2 c = true) :
    ∀ l : List Char, dashFormWith d1 l = true → dashFormWith d2 l = true := by
  intro l h
  rcases l with _ | ⟨a, _ | ⟨b, _ | ⟨c, _ | ⟨x, _ | ⟨d, _ | ⟨e, _ | ⟨f, _ | ⟨y, _ |
    ⟨g, _ | ⟨hh, _ | ⟨i, _ | ⟨j, _ | ⟨k, rest⟩⟩⟩⟩⟩⟩⟩⟩⟩⟩⟩⟩⟩
  all_goals simp only [dashFormWith, Bool.and_eq_true, List.all_eq_true] at h ⊢
  all_goals
    first
      | exact h
      | (obtain ⟨hdash, hdig⟩ := h
         exact ⟨hdash, fun c hc => hm c (hdig c hc)⟩)

/-- An ASCII digit 0-9 is a Unicode Nd digit (the first Nd range). -/
theorem isNdDigit_of_isDigitChar (c : Char) (h : isDigitChar c = true) :
    isNdDigit c = true := by
  unfold isDigitChar at h
  unfold isNdDigit
  exact List.any_eq_true.mpr ⟨(0x30, 0x39), by simp [ndDigitRanges], h⟩

/-- C6 amended: the phone check accepts a string iff it is empty, or fully
matches the grammar with `\d` read as any Unicode Nd digit, or is such a
full match followed by exactly one trailing newline; and that Nd reading
extends the grammar as written (ASCII digits). -/
theorem valid_phone_iff_nd_grammar_or_trailing_newline (s : String) :
    (valid_phone s = true ↔
      (s = "" ∨ specPhoneGrammarNd s = true ∨
       (s.data.getLast? = some '\n' ∧
        specPhoneGrammarNd (String.mk s.data.dropLast) = true))) ∧
    (specPhoneGrammar s = true → specPhoneGrammarNd s = true) := by
  constructor
  · unfold valid_phone phoneRegexMatch phoneCore specPhoneGrammarNd
    by_cases hs : s = ""
    · simp [hs]
    · simp only [if_neg hs, Bool.or_eq_true, Bool.and_eq_true, beq_iff_eq]
      tauto
  · intro h
    unfold specPhoneGrammar phoneCoreWith at h
    unfold specPhoneGrammarNd phoneCoreWith
    rw [Bool.or_eq_true] at h ⊢
    rcases h with hp | hd
    · exact Or.inl (plusFormWith_mono isNdDigit_of_isDigitChar s.data hp)
    · exact Or.inr (dashFormWith_mono isNdDigit_of_isDigitChar s.data hd)

/-- Witness for C6's amended theorem, at an ASCII phone, a malformed
string, and a Unicode-digit phone. -/
theorem valid_phone_iff_nd_grammar_witness :
    ((valid_phone "123-456-7890" = true ↔
      (("123-456-7890" : String) = "" ∨ specPhoneGrammarNd "123-456-7890" = true ∨
       (("123-456-7890" : String).data.getLast? = some '\n' ∧
        specPhoneGrammarNd (String.mk ("123-456-7890" : String).data.dropLast) = true))) ∧
     (specPhoneGrammar "123-456-7890" = true → specPhoneGrammarNd "123-456-7890" = true)) ∧
    ((valid_phone "12-3456-7890" = true ↔
      (("12-3456-7890" : String) = "" ∨ specPhoneGrammarNd "12-3456-7890" = true ∨
       (("12-3456-7890" : String).data.getLast? = some '\n' ∧
        specPhoneGrammarNd (String.mk ("12-3456-7890" : String).data.dropLast) = true))) ∧
     (specPhoneGrammar "12-3456-7890" = true → specPhoneGrammarNd "12-3456-7890" = true)) ∧
    ((valid_phone "+٠١٢٣٤٥٦" = true ↔
      (("+٠١٢٣٤٥٦" : String) = "" ∨ specPhoneGrammarNd "+٠١٢٣٤٥٦" = true ∨
       (("+٠١٢٣٤٥٦" : String).data.getLast? = some '\n' ∧
        specPhoneGrammarNd (String.mk ("+٠١٢٣٤٥٦" : String).data.dropLast) = true))) ∧
     (specPhoneGrammar "+٠١٢٣٤٥٦" = true → specPhoneGrammarNd "+٠١٢٣٤٥٦" = true)) :=
  ⟨valid_phone_iff_nd_grammar_or_trailing_newline "123-456-7890",
   valid_phone_iff_nd_grammar_or_trailing_newline "12-3456-7890",
   valid_phone_iff_nd_grammar_or_trailing_newline "+٠١٢٣٤٥٦"⟩

/-- C1: a batch [valid, duplicate-email, valid] — row 0 valid against the
pre-existing store, row 1 well-formed but with an email already taken among
the pre-existing rows plus row 0's committed row, row 2 valid against the
pre-existing rows plus row 0 (the store a row actually sees: earlier
successful rows are visible, the rolled-back row 1 is not) — yields exactly
the two valid rows as created customers, exactly one error tagged Row 1,
and a final store holding the old rows plus the two new ones. -/
theorem bulkCreate_partial_success_three_rows (db : List Customer)
    (r0 r1 r2 : CustomerInput)
    (h0 : rowErrors 0 db r0 = [])
    (h1name : r1.name ≠ "") (h1email : r1.email ≠ "")
    (h1dup : emailExists (db ++ [mkCustomer db r0]) r1.email = true)
    (h1phone : valid_phone (pyOrEmpty r1.phone) = true)
    (h2 : rowErrors 2 (db ++ [mkCustomer db r0]) r2 = []) :
    bulkCreateCustomers db [r0, r1, r2] =
      { db := db ++ [mkCustomer db r0] ++ [mkCustomer (db ++ [mkCustomer db r0]) r2],
        customers := [mkCustomer db r0, mkCustomer (db ++ [mkCustomer db r0]) r2],
        errors := ["Row " ++ toString 1 ++ ": Email already exists (" ++ r1.email ++ ")."] } := by
  have hr1 : rowErrors 1 (db ++ [mkCustomer db r0]) r1 =
      ["Row " ++ toString 1 ++ ": Email already exists (" ++ r1.email ++ ")."] := by
    simp [rowErrors, h1name, h1email, h1dup, h1phone]
  simp [bulkCreateCustomers, bulkCreateAux, h0, hr1, h2]

/-- Witness for C1's theorem: store ["e@x.com"], batch of rows B
("b@x.com"), C (duplicate "b@x.com"), D ("d@x.com"): B and D are created, C
yields the single Row 1 error, and C's attempt is invisible to D's check. -/
theorem bulkCreate_partial_success_three_rows_witness :
    bulkCreateCustomers [{ id := 0, name := "E", email := "e@x.com", phone := none }]
        [{ name := "B", email := "b@x.com", phone := none },
         { name := "C", email := "b@x.com", phone := none },
         { name := "D", email := "d@x.com", phone := some "+1234567890" }] =
      { db := [{ id := 0, name := "E", email := "e@x.com", phone := none },
               { id := 1, name := "B", email := "b@x.com", phone := none },
               { id := 2, name := "D", email := "d@x.com", phone := some "+1234567890" }],
        customers := [{ id := 1, name := "B", email := "b@x.com", phone := none },
                      { id := 2, name := "D", email := "d@x.com", phone := some "+1234567890" }],
        errors := ["Row 1: Email already exists (b@x.com)."] } := by
  rw [bulkCreate_partial_success_three_rows _ _ _ _ (by decide) (by decide) (by decide)
      (by decide) (by decide) (by decide)]
  decide

/-- If the email-existence scan is false, the email is not among the stored
emails. -/
theorem not_mem_emails_of_emailExists_false {db : List Customer} {e : String}
    (h : emailExists db e = false) : e ∉ emails db := by
  intro hmem
  rcases List.mem_map.mp hmem with ⟨c, hc, hce⟩
  have htrue : emailExists db e = true := by
    unfold emailExists
    exact List.any_eq_true.mpr ⟨c, hc, by simp [hce]⟩
  rw [htrue] at h
  exact Bool.noConfusion h

/-- A CreateCustomer input that produced no validation errors passed the
uniqueness check: its email is not in the store. -/
theorem emailExists_false_of_no_errors {db : List Customer} {i : CustomerInput}
    (he : createCustomerErrors db i = []) : emailExists db i.email = false := by
  unfold createCustomerErrors at he
  rcases List.append_eq_nil.mp he with ⟨h1, _⟩
  by_cases hex : emailExists db i.email
  · simp [hex] at h1
  · simpa using hex

/-- A bulk row that produced no validation errors passed the uniqueness
check against the table it saw. -/
theorem emailExists_false_of_rowErrors_nil {idx : Nat} {db : List Customer}
    {data : CustomerInput} (h : rowErrors idx db data = []) :
    emailExists db data.email = false := by
  unfold rowErrors at h
  rcases List.append_eq_nil.mp h with ⟨h12, _⟩
  rcases List.append_eq_nil.mp h12 with ⟨_, h2⟩
  by_cases he : data.email = ""
  · simp [he] at h2
  · rw [if_neg he] at h2
    by_cases hex : emailExists db data.email
    · simp [hex] at h2
    · simpa using hex

/-- Appending a customer whose email is not yet stored preserves pairwise
distinctness of emails. -/
theorem emails_nodup_append_fresh {db : List Customer} {i : CustomerInput}
    (h : (emails db).Nodup) (hex : emailExists db i.email = false) :
    (emails (db ++ [mkCustomer db i])).Nodup := by
  have hnm := not_mem_emails_of_emailExists_false hex
  simp only [emails, List.map_append, List.map_cons, List.map_nil] at *
  rw [List.nodup_append]
  refine ⟨h, List.nodup_singleton _, ?_⟩
  intro a ha hb
  simp only [mkCustomer, List.mem_singleton] at hb
  subst hb
  exact hnm ha

/-- A single CreateCustomer preserves pairwise distinctness of emails. -/
theorem createCustomer_preserves_email_nodup (db : List Customer) (i : CustomerInput)
    (h : (emails db).Nodup) : (emails (createCustomer db i).2).Nodup := by
  by_cases he : createCustomerErrors db i = []
  · have hex := emailExists_false_of_no_errors he
    simp only [createCustomer, he, ne_eq, not_true_eq_false, if_false]
    exact emails_nodup_append_fresh h hex
  · simp only [createCustomer, if_pos he]
    exact h

/-- The bulk row loop preserves pairwise distinctness of emails, from any
starting table. -/
theorem bulkCreateAux_preserves_email_nodup (rows : List CustomerInput) :
    ∀ (db created : List Customer) (errs : List String) (idx : Nat),
      (emails db).Nodup → (emails (bulkCreateAux db created errs idx rows).db).Nodup := by
  induction rows with
  | nil =>
      intro db created errs idx h
      exact h
  | cons data rest ih =>
      intro db created errs idx h
      by_cases hre : rowErrors idx db data = []
      · have hex := emailExists_false_of_rowErrors_nil hre
        simp only [bulkCreateAux, hre, ne_eq, not_true_eq_false, if_false]
        exact ih _ _ _ _ (emails_nodup_append_fresh h hex)
      · simp only [bulkCreateAux, if_pos hre]
        exact ih _ _ _ _ h

/-- C7: starting from a store with pairwise-distinct emails, any sequence
of CreateCustomer and BulkCreateCustomers requests leaves a store with
pairwise-distinct emails — in particular any two distinct stored customers
have distinct emails after any sequence of successful creates. -/
theorem email_uniqueness_invariant (ops : List MutationOp) (db : List Customer)
    (h : (emails db).Nodup) : (emails (applyOps db ops)).Nodup := by
  induction ops generalizing db with
  | nil => exact h
  | cons op rest ih =>
      have hstep : applyOps db (op :: rest) = applyOps (applyOp db op) rest := rfl
      rw [hstep]
      apply ih
      cases op with
      | single i => exact createCustomer_preserves_email_nodup db i h
      | bulk l => exact bulkCreateAux_preserves_email_nodup l db [] [] 0 h

/-- Witness for C7's theorem: from the empty store, a single create and a
partially failing bulk batch leave a store whose emails are pairwise
distinct. -/
theorem email_uniqueness_invariant_witness :
    (emails (applyOps []
      [MutationOp.single { name := "A", email := "a@x.com", phone := none },
       MutationOp.bulk [{ name := "B", email := "b@x.com", phone := none },
                        { name := "C", email := "a@x.com", phone := none }]])).Nodup :=
  email_uniqueness_invariant _ [] (by decide)

end Crm
